import Mathlib

/-!
Shallow embedding of the `gemini-client` Rust crate (src/lib.rs, src/types.rs):
the content data model, the serde wire encoding of `ContentPart`, the
function-calling orchestrator loop, and the model-listing pagination loop.
JSON values are modelled by the inductive `Json`; machine integers by `Nat`;
fallible operations by `Option`/`Except`.
-/

namespace Gemini

/-- Model of `serde_json::Value`: a tree of null/bool/number/string/array/map. -/
inductive Json where
  | null : Json
  | bool (b : Bool) : Json
  | num (n : Int) : Json
  | str (s : String) : Json
  | arr (xs : List Json) : Json
  | obj (kvs : List (String × Json)) : Json

/-- `enum Role` (types.rs): tags who produced a `Content` turn. -/
inductive Role where
  | user
  | system
  | model
  | tool
deriving DecidableEq

/-- `struct FunctionCall` (types.rs): name plus opaque JSON arguments
(serialized under the wire key `args`). -/
structure FunctionCall where
  name : String
  arguments : Json

/-- `struct FunctionResponsePayload` (types.rs): wrapper around the handler
result value. -/
structure FunctionResponsePayload where
  content : Json

/-- `struct FunctionResponse` (types.rs): echoes the function name plus the
response payload. -/
structure FunctionResponse where
  name : String
  response : FunctionResponsePayload

/-- `struct ExecutableCode` (types.rs). -/
structure ExecutableCode where
  code : String

/-- `struct InlineData` (types.rs). -/
structure InlineData where
  mime_type : String
  data : String

/-- `struct FileData` (types.rs). -/
structure FileData where
  mime_type : String
  file_uri : String

/-- `enum ContentData` (types.rs): the externally tagged union of the seven
part kinds, wire variant keys in camelCase. -/
inductive ContentData where
  | text (s : String)
  | inlineData (d : InlineData)
  | fileData (d : FileData)
  | functionCall (c : FunctionCall)
  | functionResponse (r : FunctionResponse)
  | executableCode (c : ExecutableCode)
  | codeExecutionResult (v : Json)

/-- `struct ContentPart` (types.rs): `thought` (default `false`, omitted on the
wire when `false`), the flattened `ContentData`, and the accept-only
`metadata` field (`skip_serializing`). -/
structure ContentPart where
  thought : Bool
  data : ContentData
  metadata : Option Json

/-- `impl From<ContentData> for ContentPart` (types.rs): wraps data with
`thought = false` and `metadata = None`. -/
def ContentPart.fromData (data : ContentData) : ContentPart :=
  { data := data, thought := false, metadata := none }

/-- `struct Content` (types.rs): ordered parts tagged with a role. -/
structure Content where
  parts : List ContentPart
  role : Role

/-- `struct ParameterPropertyString` (types.rs). -/
structure ParameterPropertyString where
  description : Option String
  enum_values : Option (List String)

/-- `struct ParameterPropertyInteger` (types.rs). -/
structure ParameterPropertyInteger where
  description : Option String

/-- `struct ParameterPropertyBoolean` (types.rs). -/
structure ParameterPropertyBoolean where
  description : Option String

/-- `enum ParameterProperty` and `struct ParameterPropertyArray` (types.rs):
the array variant recursively owns one boxed item schema. -/
inductive ParameterProperty where
  | string (p : ParameterPropertyString)
  | integer (p : ParameterPropertyInteger)
  | boolean (p : ParameterPropertyBoolean)
  | array (description : Option String) (items : ParameterProperty)

/-- `struct FunctionParameters` (types.rs): JSON-Schema-like object; the Rust
`HashMap<String, ParameterProperty>` is modelled as an association list. -/
structure FunctionParameters where
  parameter_type : String
  properties : List (String × ParameterProperty)
  required : Option (List String)

/-- `struct FunctionDeclaration` (types.rs). -/
structure FunctionDeclaration where
  name : String
  description : String
  parameters : Option FunctionParameters
  response : Option FunctionParameters

/-- `struct ToolConfigFunctionDeclaration` (types.rs). -/
structure ToolConfigFunctionDeclaration where
  function_declarations : List FunctionDeclaration

/-- `struct DynamicRetrievalConfig` (types.rs); `dynamic_threshold : f64`. -/
structure DynamicRetrievalConfig where
  mode : String
  dynamic_threshold : Float

/-- `struct DynamicRetrieval` (types.rs). -/
structure DynamicRetrieval where
  dynamic_retrieval_config : DynamicRetrievalConfig

/-- `enum Tool` (types.rs): untagged union over the four tool shapes. -/
inductive Tool where
  | functionDeclaration (t : ToolConfigFunctionDeclaration)
  | dynamicRetrieval (google_search_retrieval : DynamicRetrieval)
  | googleSearch (google_search : Json)
  | codeExecution (code_execution : Json)

/-- `enum FunctionCallingMode` (types.rs). -/
inductive FunctionCallingMode where
  | modeUnspecified
  | auto
  | any
  | none
  | validated

/-- `struct FunctionCallingConfig` (types.rs). -/
structure FunctionCallingConfig where
  mode : FunctionCallingMode
  allowed_function_names : List String

/-- `struct ToolConfig` (types.rs). -/
structure ToolConfig where
  function_calling_config : FunctionCallingConfig

/-- `struct ThinkingConfig` (types.rs). -/
structure ThinkingConfig where
  include_thoughts : Bool
  thinking_budget : Option Nat

/-- `struct GenerationConfig` (types.rs); `f64` fields modelled as `Float`. -/
structure GenerationConfig where
  stop_sequences : List String
  response_mime_type : Option String
  response_schema : Option Json
  response_modalities : List String
  candidate_count : Option Int
  max_output_tokens : Option Int
  temperature : Option Float
  top_p : Option Float
  top_k : Option Int
  seed : Option Int
  presence_penalty : Option Float
  frequency_penalty : Option Float
  response_logprobs : Option Bool
  logprobs : Option Int
  enable_enhanced_civic_answers : Option Bool
  speech_config : Option Json
  thinking_config : Option ThinkingConfig
  media_resolution : Option String

/-- `struct GenerateContentRequest` (types.rs): the root outbound aggregate;
`contents` is the conversation mutated in place by the orchestrator. -/
structure GenerateContentRequest where
  system_instruction : Option Content
  contents : List Content
  tools : List Tool
  tool_config : Option ToolConfig
  generation_config : Option GenerationConfig

/-- `enum PromptFeedback` (types.rs). -/
inductive PromptFeedback where
  | blockReasonUnspecified
  | safety
  | other
  | blocklist
  | prohibitedContent
  | imageSafety

/-- `enum Modality` (types.rs). -/
inductive Modality where
  | modalityUnspecified
  | text
  | image
  | video
  | audio
  | document

/-- `struct ModalityTokenCount` (types.rs). -/
structure ModalityTokenCount where
  modality : Modality
  token_count : Nat

/-- `struct UsageMetadata` (types.rs); `u32` counts modelled as `Nat`. -/
structure UsageMetadata where
  prompt_token_count : Nat
  total_token_count : Nat
  candidates_token_count : Option Nat
  cached_content_token_count : Option Nat
  tool_use_prompt_token_count : Option Nat
  thoughts_token_count : Option Nat
  prompt_tokens_details : List ModalityTokenCount
  cache_tokens_details : List ModalityTokenCount
  candidates_tokens_details : List ModalityTokenCount
  tool_use_prompt_tokens_details : List ModalityTokenCount

/-- `enum FinishReason` (types.rs). -/
inductive FinishReason where
  | finishReasonUnspecified
  | stop
  | maxTokens
  | safety
  | recitation
  | language
  | other
  | blocklist
  | prohibitedContent
  | spii
  | malformedFunctionCall
  | imageSafety

/-- `enum HarmProbability` (types.rs). -/
inductive HarmProbability where
  | harmProbabilityUnspecified
  | negligible
  | low
  | medium
  | high

/-- `enum HarmCategory` (types.rs). -/
inductive HarmCategory where
  | harmCategoryUnspecified
  | derogatory
  | toxicity
  | violence
  | sexual
  | medical
  | dangerous
  | harassment
  | hateSpeech
  | sexuallyExplicit
  | dangerousContent
  | civicIntegrity

/-- `struct SatisfyRating` (types.rs, the source's name for a safety rating). -/
structure SatisfyRating where
  category : HarmCategory
  probability : HarmProbability
  blocked : Bool

/-- `struct CitationSource` (types.rs). -/
structure CitationSource where
  start_index : Option Nat
  end_index : Option Nat
  uri : Option String
  license : Option String

/-- `struct CitationMetadata` (types.rs). -/
structure CitationMetadata where
  citation_sources : List CitationSource

/-- `struct GroundingPassageId` (types.rs). -/
structure GroundingPassageId where
  passage_id : Option String
  part_index : Option Nat

/-- `struct SemanticRetrieverChunk` (types.rs). -/
structure SemanticRetrieverChunk where
  source : String
  chunk : String

/-- `enum AttributionSourceId` (types.rs): untagged union. -/
inductive AttributionSourceId where
  | groundingPassage (p : GroundingPassageId)
  | semanticRetrieverChunk (c : SemanticRetrieverChunk)

/-- `struct GroundingAttribution` (types.rs). -/
structure GroundingAttribution where
  source_id : Option AttributionSourceId
  content : Content

/-- `struct Candidate` (types.rs): one generated alternative; the source's
field name `satefy_ratings` is kept as written; `avg_logprobs : f32` is
modelled as `Float`. -/
structure Candidate where
  content : Content
  finish_reason : Option FinishReason
  satefy_ratings : Option (List SatisfyRating)
  citation_metadata : Option CitationMetadata
  token_count : Option Nat
  grounding_attributions : List GroundingAttribution
  avg_logprobs : Option Float
  index : Option Nat

/-- `struct GenerateContentResponse` (types.rs): the root inbound aggregate. -/
structure GenerateContentResponse where
  candidates : List Candidate
  prompt_feedback : Option PromptFeedback
  usage_metadata : UsageMetadata
  model_version : String
  response_id : String

/-- `type FunctionHandler` (lib.rs): `Fn(&mut serde_json::Value) ->
Result<serde_json::Value, String>`. The handler receives a mutable clone of
the call arguments; the pair's first component is the handler's final
(possibly mutated) view of that clone, the second is its `Result`. The
orchestrator clones before invoking and never reads the mutated view back. -/
def FunctionHandler := Json → Json × Except String Json

/-- Lookup in the handler registry (`HashMap<String, FunctionHandler>` in
lib.rs, modelled as an association list with the map's unique-key reading:
first match wins). -/
def hmGet (m : List (String × FunctionHandler)) (k : String) :
    Option FunctionHandler :=
  match m with
  | [] => none
  | (k₁, v) :: rest => if k₁ = k then some v else hmGet rest k

/-- Outcome of one run of the function-calling loop against a scripted
transport: `success` is `Ok(response)`, `functionExecutionError` is
`Err(GeminiError::FunctionExecution(msg))`, and `exhausted` marks the stub
transport running out of scripted responses (a transport-level abort). -/
inductive FCOutcome where
  | success (response : GenerateContentResponse)
  | functionExecutionError (msg : String)
  | exhausted

/-- Trace of one run of `generate_content_with_function_calling`: the
outcome, the number of `generate_content` transport calls made, and the
final state of `request.contents` (the conversation grown in place). -/
structure FCTrace where
  outcome : FCOutcome
  calls : Nat
  finalContents : List Content

/-- `GeminiClient::generate_content_with_function_calling` (lib.rs lines
192-248), with the transport abstracted as the list of responses
`generate_content` returns in order; consuming one scripted response is one
transport call. Mirrors the source loop: inspect the first part of the first
candidate; return the response on anything that is not a function call;
on a function call, look up the handler, invoke it on a clone of the
arguments, and on success push the `user`-role call echo and the
`tool`-role function response before looping. -/
def generate_content_with_function_calling
    (function_handlers : List (String × FunctionHandler)) :
    List GenerateContentResponse → GenerateContentRequest → FCTrace
  | [], request =>
    { outcome := .exhausted, calls := 0, finalContents := request.contents }
  | response :: rest, request =>
    match response.candidates.head? with
    | some candidate =>
      match candidate.content.parts.head? with
      | some part =>
        match part.data with
        | .text _ =>
          { outcome := .success response, calls := 1,
            finalContents := request.contents }
        | .functionCall function_call =>
          match hmGet function_handlers function_call.name with
          | some handler =>
            match (handler function_call.arguments).2 with
            | .ok result =>
              let t := generate_content_with_function_calling
                function_handlers rest
                { request with
                  contents := request.contents ++
                    [ { parts := [ContentPart.fromData
                          (.functionCall function_call)],
                        role := .user },
                      { parts := [ContentPart.fromData
                          (.functionResponse
                            { name := function_call.name,
                              response := { content := result } })],
                        role := .tool } ] }
              { outcome := t.outcome, calls := t.calls + 1,
                finalContents := t.finalContents }
            | .error e =>
              { outcome := .functionExecutionError e, calls := 1,
                finalContents := request.contents }
          | none =>
            { outcome := .functionExecutionError
                ("Unknown function: " ++ function_call.name),
              calls := 1, finalContents := request.contents }
        | _ =>
          { outcome := .success response, calls := 1,
            finalContents := request.contents }
      | none =>
        { outcome := .success response, calls := 1,
          finalContents := request.contents }
    | none =>
      { outcome := .success response, calls := 1,
        finalContents := request.contents }

/-- The datum the orchestrator inspects: the data of the first part of the
first candidate, when both exist. -/
def firstPartData (r : GenerateContentResponse) : Option ContentData :=
  match r.candidates.head? with
  | none => none
  | some candidate =>
    match candidate.content.parts.head? with
    | none => none
    | some part => some part.data

/-- Decidable test: is the inspected first part a function call? -/
def isFunctionCallFirst (r : GenerateContentResponse) : Bool :=
  match firstPartData r with
  | some (.functionCall _) => true
  | _ => false

/-- `struct Model` (types.rs): catalog entry; `base_model_id` is
`skip_deserializing` and is filled in client-side by `list_models`;
`f32` bounds modelled as `Float`. -/
structure Model where
  name : String
  base_model_id : String
  version : String
  display_name : String
  description : Option String
  input_token_limit : Nat
  output_token_limit : Nat
  supported_generation_methods : List String
  temperature : Option Float
  max_temperature : Option Float
  top_p : Option Float
  top_k : Option Float

/-- Replace every non-overlapping occurrence of `pat` in the character list,
scanning left to right — the semantics of Rust `str::replace`. Structural
recursion on a fuel argument; fuel at least the list length suffices, since
every step consumes at least one character. -/
def replaceAllAux (pat rep : List Char) : Nat → List Char → List Char
  | _, [] => []
  | 0, l => l
  | fuel + 1, c :: rest =>
    if pat ≠ [] ∧ pat.isPrefixOf (c :: rest) then
      rep ++ replaceAllAux pat rep fuel (List.drop (pat.length - 1) rest)
    else
      c :: replaceAllAux pat rep fuel rest

/-- Rust `String::replace(pat, rep)`: replaces all occurrences, not only a
leading prefix. -/
def rustReplace (s pat rep : String) : String :=
  ⟨replaceAllAux pat.data rep.data s.data.length s.data⟩

/-- Modelled from the spec: the spec describes `base_model_id` as the entry
name "with the known `models/` prefix stripped"; this definition follows
those words (strip one leading occurrence only), to be compared with the
source's `rustReplace` behavior. -/
def stripPrefixSpec (name : String) : String :=
  if "models/".data.isPrefixOf name.data then ⟨name.data.drop 7⟩ else name

/-- The post-processing step of `list_models` (lib.rs line 117):
`model.base_model_id = model.name.replace("models/", "")`. -/
def setBaseModelId (model : Model) : Model :=
  { model with base_model_id := rustReplace model.name "models/" "" }

/-- The accumulation loop of `GeminiClient::list_models` (lib.rs lines
93-112) against a chained paginated server: `pages` is the sequence of
successful pages, where a GET with no `pageToken` returns page 0 and page
`i` carries `nextPageToken = some (i+1)` exactly when `i+1 < pages.length`
(every page but the last carries a token, the last does not). Returns the
accumulated models (`none` on a fetch failure, i.e. a page index outside
the chain) paired with the ordered list of `pageToken` query parameters of
the GETs the loop issued (`none` = no token). Structural recursion on a
fuel argument; fuel at least `pages.length - i` suffices, since `i`
increases by one each iteration and the loop stops at the last page. Fuel
`0` reports a fetch failure (never reached from `list_models`, which
supplies `pages.length`). -/
def list_models_loop (pages : List (List Model)) :
    Nat → Nat → List Model → Option (List Model) × List (Option Nat)
  | 0, i, _ => (none, [if i = 0 then none else some i])
  | fuel + 1, i, acc =>
    let tok : Option Nat := if i = 0 then none else some i
    match pages[i]? with
    | none => (none, [tok])
    | some page_models =>
      if i + 1 < pages.length then
        let t := list_models_loop pages fuel (i + 1) (acc ++ page_models)
        (t.1, tok :: t.2)
      else
        (some (acc ++ page_models), [tok])

/-- `GeminiClient::list_models` (lib.rs lines 76-121): an initial GET whose
successful body is discarded (only the status is checked, lib.rs lines
86-89), then the accumulation loop starting again at page 0 with no token,
then the `base_model_id` post-processing map. The second component is the
ordered list of `pageToken` parameters of every GET issued. -/
def list_models (pages : List (List Model)) :
    Option (List Model) × List (Option Nat) :=
  match pages.head? with
  | none => (none, [none])
  | some _ =>
    let t := list_models_loop pages pages.length 0 []
    ((t.1).map (List.map setBaseModelId), none :: t.2)

/-- First-match lookup of a key among the fields of a JSON object. -/
def findVal (kvs : List (String × Json)) (k : String) : Option Json :=
  match kvs with
  | [] => none
  | (k₁, v) :: rest => if k₁ = k then some v else findVal rest k

/-- The serde serialization of `ContentData` (types.rs): externally tagged,
camelCase variant keys and camelCase struct fields. -/
def encodeContentData (d : ContentData) : String × Json :=
  match d with
  | .text s => ("text", .str s)
  | .inlineData d =>
    ("inlineData", .obj [("mimeType", .str d.mime_type), ("data", .str d.data)])
  | .fileData d =>
    ("fileData", .obj [("mimeType", .str d.mime_type), ("fileUri", .str d.file_uri)])
  | .functionCall c =>
    ("functionCall", .obj [("name", .str c.name), ("args", c.arguments)])
  | .functionResponse r =>
    ("functionResponse",
      .obj [("name", .str r.name), ("response", .obj [("content", r.response.content)])])
  | .executableCode c => ("executableCode", .obj [("code", .str c.code)])
  | .codeExecutionResult v => ("codeExecutionResult", v)

/-- The serde serialization of `ContentPart` (types.rs): `thought` is
omitted when `false` (`skip_serializing_if = "is_false"`), the data variant
is flattened into the same object, and `metadata` is never serialized
(`skip_serializing`). -/
def encodeContentPart (p : ContentPart) : Json :=
  .obj ((if p.thought then [("thought", .bool true)] else []) ++
    [encodeContentData p.data])

/-- The serde deserialization of one `ContentData` variant from its wire key
and payload. Unknown fields inside a variant payload are ignored (serde's
default); required fields must be present with the right shape. -/
def decodeContentData (k : String) (v : Json) : Option ContentData :=
  if k = "text" then
    match v with
    | .str s => some (.text s)
    | _ => none
  else if k = "inlineData" then
    match v with
    | .obj kvs =>
      match findVal kvs "mimeType", findVal kvs "data" with
      | some (.str m), some (.str d) => some (.inlineData ⟨m, d⟩)
      | _, _ => none
    | _ => none
  else if k = "fileData" then
    match v with
    | .obj kvs =>
      match findVal kvs "mimeType", findVal kvs "fileUri" with
      | some (.str m), some (.str u) => some (.fileData ⟨m, u⟩)
      | _, _ => none
    | _ => none
  else if k = "functionCall" then
    match v with
    | .obj kvs =>
      match findVal kvs "name", findVal kvs "args" with
      | some (.str n), some a => some (.functionCall ⟨n, a⟩)
      | _, _ => none
    | _ => none
  else if k = "functionResponse" then
    match v with
    | .obj kvs =>
      match findVal kvs "name", findVal kvs "response" with
      | some (.str n), some (.obj rkvs) =>
        match findVal rkvs "content" with
        | some c => some (.functionResponse ⟨n, ⟨c⟩⟩)
        | none => none
      | _, _ => none
    | _ => none
  else if k = "executableCode" then
    match v with
    | .obj kvs =>
      match findVal kvs "code" with
      | some (.str c) => some (.executableCode ⟨c⟩)
      | _ => none
    | _ => none
  else if k = "codeExecutionResult" then
    some (.codeExecutionResult v)
  else none

/-- The serde deserialization of `ContentPart` (types.rs): the struct fields
`thought` (defaulting to `false`, must be a boolean when present) and
`metadata` are consumed first; the flattened externally tagged `ContentData`
then requires exactly one remaining variant-named key. `metadata` is an
`Option<serde_json::Value>`, so serde turns an absent field or a JSON
`null` into `None` and any other present value into `Some`. -/
def decodeContentPart (j : Json) : Option ContentPart :=
  match j with
  | .obj kvs =>
    let thoughtField : Option Bool :=
      match findVal kvs "thought" with
      | none => some false
      | some (.bool b) => some b
      | some _ => none
    match thoughtField with
    | none => none
    | some thought =>
      let metadata : Option Json :=
        match findVal kvs "metadata" with
        | some Json.null => none
        | v => v
      match kvs.filter (fun kv => !(kv.1 == "thought" || kv.1 == "metadata")) with
      | [(k, v)] => (decodeContentData k v).map (fun d => ⟨thought, d, metadata⟩)
      | _ => none
  | _ => none

/-- Extend a wire object with a populated `metadata` field. -/
def insertMetadata (j : Json) (m : Json) : Json :=
  match j with
  | .obj kvs => .obj (("metadata", m) :: kvs)
  | other => other

/-- Lookup of a key in a wire object. -/
def objFind (j : Json) (k : String) : Option Json :=
  match j with
  | .obj kvs => findVal kvs k
  | _ => none

/-- Concrete handler that succeeds with `Json.null` and leaves its argument
view unchanged. -/
def fcHandlerOkNull : FunctionHandler := fun a => (a, Except.ok Json.null)

/-- Concrete handler that fails with the message `"boom"`. -/
def fcHandlerErrBoom : FunctionHandler := fun a => (a, Except.error "boom")

/-- Concrete mutating view: overwrites the whole argument value. -/
def fcMutConst : Json → Json := fun _ => Json.str "mutated"

/-- Concrete result component for the mutating handler. -/
def fcResOk : Json → Except String Json := fun _ => Except.ok (Json.str "ok")

/-- Registry with the single succeeding handler `"f"`. -/
def fcRegistry : List (String × FunctionHandler) := [("f", fcHandlerOkNull)]

/-- Registry with the single failing handler `"f"`. -/
def fcRegistryErr : List (String × FunctionHandler) := [("f", fcHandlerErrBoom)]

/-- Registry with the single mutating handler `"f"`. -/
def fcRegistryMut : List (String × FunctionHandler) :=
  [("f", fun a => (fcMutConst a, fcResOk a))]

/-- Concrete zero usage accounting for fixture responses. -/
def usageZero : UsageMetadata :=
  { prompt_token_count := 0, total_token_count := 0,
    candidates_token_count := none, cached_content_token_count := none,
    tool_use_prompt_token_count := none, thoughts_token_count := none,
    prompt_tokens_details := [], cache_tokens_details := [],
    candidates_tokens_details := [], tool_use_prompt_tokens_details := [] }

/-- Concrete function call `"f"` with `null` arguments. -/
def fcCall : FunctionCall := { name := "f", arguments := Json.null }

/-- Concrete candidate whose first (and only) part is the call `fcCall`. -/
def fcCandidate : Candidate :=
  { content := { parts := [ContentPart.fromData (ContentData.functionCall fcCall)],
                 role := Role.model },
    finish_reason := none, satefy_ratings := none,
    citation_metadata := none, token_count := none,
    grounding_attributions := [], avg_logprobs := none, index := none }

/-- Concrete response whose first candidate's first part is a function call. -/
def fcResponse : GenerateContentResponse :=
  { candidates := [fcCandidate],
    prompt_feedback := none, usage_metadata := usageZero,
    model_version := "m", response_id := "r" }

/-- Concrete candidate whose first part is the text `"4"`. -/
def textCandidate : Candidate :=
  { content := { parts := [ContentPart.fromData (ContentData.text "4")],
                 role := Role.model },
    finish_reason := none, satefy_ratings := none,
    citation_metadata := none, token_count := none,
    grounding_attributions := [], avg_logprobs := none, index := none }

/-- Concrete response whose first candidate's first part is plain text. -/
def textResponse : GenerateContentResponse :=
  { candidates := [textCandidate],
    prompt_feedback := none, usage_metadata := usageZero,
    model_version := "m", response_id := "r" }

/-- Concrete empty request. -/
def emptyRequest : GenerateContentRequest :=
  { system_instruction := none, contents := [], tools := [],
    tool_config := none, generation_config := none }

/-- Concrete catalog entry whose name contains `models/` twice. -/
def oddModel : Model :=
  { name := "models/models/x", base_model_id := "", version := "v",
    display_name := "d", description := none, input_token_limit := 0,
    output_token_limit := 0, supported_generation_methods := [],
    temperature := none, max_temperature := none, top_p := none,
    top_k := none }

/-- Concrete catalog entry on page one of the pagination fixtures. -/
def modelA : Model :=
  { name := "models/alpha", base_model_id := "", version := "1",
    display_name := "a", description := none, input_token_limit := 1,
    output_token_limit := 1, supported_generation_methods := [],
    temperature := none, max_temperature := none, top_p := none,
    top_k := none }

/-- Concrete catalog entry on page two of the pagination fixtures. -/
def modelB : Model :=
  { name := "models/beta", base_model_id := "", version := "2",
    display_name := "b", description := none, input_token_limit := 1,
    output_token_limit := 1, supported_generation_methods := [],
    temperature := none, max_temperature := none, top_p := none,
    top_k := none }

/-- Step lemma: on a function-call first part with a registered handler
returning `Ok`, the loop extends the conversation by the call echo and the
function response, then recurses, counting one transport call. -/
theorem fc_step_function_call_ok (handlers : List (String × FunctionHandler))
    (r : GenerateContentResponse) (rest : List GenerateContentResponse)
    (req : GenerateContentRequest) (fc : FunctionCall)
    (handler : FunctionHandler) (result : Json)
    (h1 : firstPartData r = some (.functionCall fc))
    (h2 : hmGet handlers fc.name = some handler)
    (h3 : (handler fc.arguments).2 = .ok result) :
    generate_content_with_function_calling handlers (r :: rest) req =
      (let t := generate_content_with_function_calling handlers rest
        { req with contents := req.contents ++
            [⟨[ContentPart.fromData (.functionCall fc)], .user⟩,
             ⟨[ContentPart.fromData (.functionResponse ⟨fc.name, ⟨result⟩⟩)], .tool⟩] };
       ⟨t.outcome, t.calls + 1, t.finalContents⟩) := by
  unfold firstPartData at h1
  cases hc : r.candidates.head? with
  | none => simp [hc] at h1
  | some cand =>
    simp only [hc] at h1
    cases hp : cand.content.parts.head? with
    | none => simp [hp] at h1
    | some part =>
      simp only [hp, Option.some.injEq] at h1
      simp only [generate_content_with_function_calling, hc, hp, h1, h2, h3]

/-- Step lemma: on anything that is not a function-call first part, the loop
returns the response as a success after this one transport call, leaving the
conversation unchanged. -/
theorem fc_step_not_function_call (handlers : List (String × FunctionHandler))
    (r : GenerateContentResponse) (rest : List GenerateContentResponse)
    (req : GenerateContentRequest)
    (h : isFunctionCallFirst r = false) :
    generate_content_with_function_calling handlers (r :: rest) req =
      ⟨.success r, 1, req.contents⟩ := by
  unfold isFunctionCallFirst firstPartData at h
  cases hc : r.candidates.head? with
  | none => simp [generate_content_with_function_calling, hc]
  | some cand =>
    simp only [hc] at h
    cases hp : cand.content.parts.head? with
    | none => simp [generate_content_with_function_calling, hc, hp]
    | some part =>
      simp only [hp] at h
      cases hd : part.data <;> rw [hd] at h <;>
        simp_all [generate_content_with_function_calling, hc, hp, hd]

/-- Step lemma: on a function-call first part whose registered handler
returns `Err(msg)`, the loop stops with a `FunctionExecution` error after
this one transport call and appends nothing. -/
theorem fc_step_handler_error (handlers : List (String × FunctionHandler))
    (r : GenerateContentResponse) (rest : List GenerateContentResponse)
    (req : GenerateContentRequest) (fc : FunctionCall)
    (handler : FunctionHandler) (msg : String)
    (h1 : firstPartData r = some (.functionCall fc))
    (h2 : hmGet handlers fc.name = some handler)
    (h3 : (handler fc.arguments).2 = .error msg) :
    generate_content_with_function_calling handlers (r :: rest) req =
      ⟨.functionExecutionError msg, 1, req.contents⟩ := by
  unfold firstPartData at h1
  cases hc : r.candidates.head? with
  | none => simp [hc] at h1
  | some cand =>
    simp only [hc] at h1
    cases hp : cand.content.parts.head? with
    | none => simp [hp] at h1
    | some part =>
      simp only [hp, Option.some.injEq] at h1
      simp only [generate_content_with_function_calling, hc, hp, h1, h2, h3]

/-- Step lemma: on a function-call first part whose name is not registered,
the loop stops with the `Unknown function` error after this one transport
call and appends nothing. -/
theorem fc_step_unknown_function (handlers : List (String × FunctionHandler))
    (r : GenerateContentResponse) (rest : List GenerateContentResponse)
    (req : GenerateContentRequest) (fc : FunctionCall)
    (h1 : firstPartData r = some (.functionCall fc))
    (h2 : hmGet handlers fc.name = none) :
    generate_content_with_function_calling handlers (r :: rest) req =
      ⟨.functionExecutionError ("Unknown function: " ++ fc.name), 1,
       req.contents⟩ := by
  unfold firstPartData at h1
  cases hc : r.candidates.head? with
  | none => simp [hc] at h1
  | some cand =>
    simp only [hc] at h1
    cases hp : cand.content.parts.head? with
    | none => simp [hp] at h1
    | some part =>
      simp only [hp, Option.some.injEq] at h1
      simp only [generate_content_with_function_calling, hc, hp, h1, h2]

/-- Characterization of the pagination loop on an in-range start index with
enough fuel: it accumulates the remaining pages in order and requests the
tokens `i, i+1, ..., n-1` (page `0` with no token). -/
theorem list_models_loop_eq (pages : List (List Model)) :
    ∀ (fuel i : Nat) (acc : List Model), i < pages.length →
      pages.length ≤ i + fuel →
      list_models_loop pages fuel i acc =
        (some (acc ++ (pages.drop i).flatten),
         (List.range' i (pages.length - i)).map
           (fun j => if j = 0 then none else some j)) := by
  intro fuel
  induction fuel with
  | zero => intro i acc h1 h2; omega
  | succ fuel ih =>
    intro i acc h1 h2
    have hp : pages[i]? = some pages[i] := List.getElem?_eq_getElem h1
    have hdrop : pages.drop i = pages[i] :: pages.drop (i+1) :=
      List.drop_eq_getElem_cons h1
    have hrange : pages.length - i = (pages.length - (i+1)) + 1 := by omega
    rw [list_models_loop, hp]
    by_cases hi : i + 1 < pages.length
    · simp only [if_pos hi]
      rw [ih (i + 1) (acc ++ pages[i]) hi (by omega)]
      rw [hdrop, List.flatten_cons, hrange, List.range'_succ, List.map_cons]
      simp [List.append_assoc]
    · simp only [if_neg hi]
      have hlast : pages.length - (i+1) = 0 := by omega
      rw [hdrop, List.flatten_cons, hrange, hlast, List.range'_succ, List.map_cons]
      have : pages.drop (i+1) = [] := List.drop_eq_nil_of_le (by omega)
      rw [this]
      simp

/-- Characterization of `list_models` on a non-empty chain of pages: the
returned list is the concatenation of all pages post-processed by
`setBaseModelId`, and the GET trace is the token-less status-check request
followed by the loop requests for pages `0, 1, ..., n-1`. -/
theorem list_models_eq (pages : List (List Model)) (h : pages ≠ []) :
    list_models pages =
      (some ((pages.flatten).map setBaseModelId),
       none :: (List.range pages.length).map
         (fun j => if j = 0 then none else some j)) := by
  obtain ⟨p, ps, rfl⟩ := List.exists_cons_of_ne_nil h
  rw [list_models]
  simp only [List.head?_cons]
  rw [list_models_loop_eq _ _ 0 [] (by simp) (by simp)]
  simp [List.range_eq_range']

/-- A scripted transport of `k` function-call responses makes the loop
perform exactly `k` transport calls before the script runs out. -/
theorem fc_replicate_calls :
    ∀ (k : Nat) (req : GenerateContentRequest),
      (generate_content_with_function_calling fcRegistry
        (List.replicate k fcResponse) req).calls = k := by
  intro k
  induction k with
  | zero => intro req; rfl
  | succ k ih =>
    intro req
    rw [List.replicate_succ,
      fc_step_function_call_ok fcRegistry fcResponse _ req fcCall
        fcHandlerOkNull Json.null rfl rfl rfl]
    simp [ih]

/-- C1: when the first candidate's first part is a function call whose
registered handler returns `Ok(result)`, the orchestrator appends exactly
two turns to the request's contents — a `user`-role echo of the original
call, then a `tool`-role `FunctionResponse` with the same name and the
result as content — before re-issuing the request, at the cost of one
transport call. -/
theorem claim_C1_function_call_ok_appends_two_turns
    (handlers : List (String × FunctionHandler))
    (r : GenerateContentResponse) (rest : List GenerateContentResponse)
    (req : GenerateContentRequest) (fc : FunctionCall)
    (handler : FunctionHandler) (result : Json)
    (h1 : firstPartData r = some (.functionCall fc))
    (h2 : hmGet handlers fc.name = some handler)
    (h3 : (handler fc.arguments).2 = .ok result) :
    generate_content_with_function_calling handlers (r :: rest) req =
      (let t := generate_content_with_function_calling handlers rest
        { req with contents := req.contents ++
            [⟨[ContentPart.fromData (.functionCall fc)], .user⟩,
             ⟨[ContentPart.fromData (.functionResponse ⟨fc.name, ⟨result⟩⟩)], .tool⟩] };
       ⟨t.outcome, t.calls + 1, t.finalContents⟩) :=
  fc_step_function_call_ok handlers r rest req fc handler result h1 h2 h3

/-- Witness for C1 at a concrete call, handler and request. -/
theorem claim_C1_witness :
    firstPartData fcResponse = some (.functionCall fcCall) ∧
    hmGet fcRegistry fcCall.name = some fcHandlerOkNull ∧
    (fcHandlerOkNull fcCall.arguments).2 = .ok Json.null ∧
    generate_content_with_function_calling fcRegistry [fcResponse] emptyRequest =
      (let t := generate_content_with_function_calling fcRegistry []
        { emptyRequest with contents := emptyRequest.contents ++
            [⟨[ContentPart.fromData (.functionCall fcCall)], .user⟩,
             ⟨[ContentPart.fromData (.functionResponse ⟨fcCall.name, ⟨Json.null⟩⟩)], .tool⟩] };
       ⟨t.outcome, t.calls + 1, t.finalContents⟩) :=
  ⟨rfl, rfl, rfl,
   claim_C1_function_call_ok_appends_two_turns fcRegistry fcResponse []
     emptyRequest fcCall fcHandlerOkNull Json.null rfl rfl rfl⟩

/-- C2: when there are no candidates, or the first candidate's content has
no parts, or the first part's data is not a function call, the orchestrator
returns that response unchanged as a success after exactly one transport
call, with no turns appended to the request. -/
theorem claim_C2_non_function_call_returned_unchanged
    (handlers : List (String × FunctionHandler))
    (r : GenerateContentResponse) (rest : List GenerateContentResponse)
    (req : GenerateContentRequest)
    (h : isFunctionCallFirst r = false) :
    generate_content_with_function_calling handlers (r :: rest) req =
      ⟨.success r, 1, req.contents⟩ :=
  fc_step_not_function_call handlers r rest req h

/-- Witness for C2 at a concrete text-first response. -/
theorem claim_C2_witness :
    isFunctionCallFirst textResponse = false ∧
    generate_content_with_function_calling fcRegistry [textResponse]
      emptyRequest = ⟨.success textResponse, 1, emptyRequest.contents⟩ :=
  ⟨rfl, claim_C2_non_function_call_returned_unchanged fcRegistry textResponse
    [] emptyRequest rfl⟩

/-- C3: when the registered handler for the observed function call returns
`Err(msg)`, the orchestrator stops with a `FunctionExecution` error whose
message equals `msg`, makes no further transport calls, and leaves the
request's content list unchanged. -/
theorem claim_C3_handler_error_fatal_non_mutating
    (handlers : List (String × FunctionHandler))
    (r : GenerateContentResponse) (rest : List GenerateContentResponse)
    (req : GenerateContentRequest) (fc : FunctionCall)
    (handler : FunctionHandler) (msg : String)
    (h1 : firstPartData r = some (.functionCall fc))
    (h2 : hmGet handlers fc.name = some handler)
    (h3 : (handler fc.arguments).2 = .error msg) :
    generate_content_with_function_calling handlers (r :: rest) req =
      ⟨.functionExecutionError msg, 1, req.contents⟩ :=
  fc_step_handler_error handlers r rest req fc handler msg h1 h2 h3

/-- Witness for C3 at a concrete failing handler. -/
theorem claim_C3_witness :
    firstPartData fcResponse = some (.functionCall fcCall) ∧
    hmGet fcRegistryErr fcCall.name = some fcHandlerErrBoom ∧
    (fcHandlerErrBoom fcCall.arguments).2 = .error "boom" ∧
    generate_content_with_function_calling fcRegistryErr [fcResponse]
      emptyRequest =
      ⟨.functionExecutionError "boom", 1, emptyRequest.contents⟩ :=
  ⟨rfl, rfl, rfl,
   claim_C3_handler_error_fatal_non_mutating fcRegistryErr fcResponse []
     emptyRequest fcCall fcHandlerErrBoom "boom" rfl rfl rfl⟩

/-- C4: when the observed function call names a handler absent from the
registry, the orchestrator stops with a `FunctionExecution` error naming the
unknown function, after exactly one transport call and with no partial
result. -/
theorem claim_C4_unknown_function_fatal
    (handlers : List (String × FunctionHandler))
    (r : GenerateContentResponse) (rest : List GenerateContentResponse)
    (req : GenerateContentRequest) (fc : FunctionCall)
    (h1 : firstPartData r = some (.functionCall fc))
    (h2 : hmGet handlers fc.name = none) :
    generate_content_with_function_calling handlers (r :: rest) req =
      ⟨.functionExecutionError ("Unknown function: " ++ fc.name), 1,
       req.contents⟩ :=
  fc_step_unknown_function handlers r rest req fc h1 h2

/-- Witness for C4 at an empty registry. -/
theorem claim_C4_witness :
    firstPartData fcResponse = some (.functionCall fcCall) ∧
    hmGet [] fcCall.name = none ∧
    generate_content_with_function_calling [] [fcResponse] emptyRequest =
      ⟨.functionExecutionError ("Unknown function: " ++ fcCall.name), 1,
       emptyRequest.contents⟩ :=
  ⟨rfl, rfl,
   claim_C4_unknown_function_fatal [] fcResponse [] emptyRequest fcCall
     rfl rfl⟩

/-- C5: the handler is invoked on a copy of the call's arguments; whatever
the handler's mutated view `mutate` of that copy is, the `FunctionCall`
part appended to the conversation is the original call `fc` as received
from the model — the orchestrator's behavior does not depend on `mutate`
at all, only on the result component `res`. -/
theorem claim_C5_handler_mutation_not_recorded
    (mutate : Json → Json) (res : Json → Except String Json)
    (handlers : List (String × FunctionHandler))
    (r : GenerateContentResponse) (rest : List GenerateContentResponse)
    (req : GenerateContentRequest) (fc : FunctionCall) (result : Json)
    (h1 : firstPartData r = some (.functionCall fc))
    (h2 : hmGet handlers fc.name = some (fun a => (mutate a, res a)))
    (h3 : res fc.arguments = .ok result) :
    generate_content_with_function_calling handlers (r :: rest) req =
      (let t := generate_content_with_function_calling handlers rest
        { req with contents := req.contents ++
            [⟨[ContentPart.fromData (.functionCall fc)], .user⟩,
             ⟨[ContentPart.fromData (.functionResponse ⟨fc.name, ⟨result⟩⟩)], .tool⟩] };
       ⟨t.outcome, t.calls + 1, t.finalContents⟩) :=
  fc_step_function_call_ok handlers r rest req fc
    (fun a => (mutate a, res a)) result h1 h2 h3

/-- Witness for C5 at a handler that overwrites its whole argument view. -/
theorem claim_C5_witness :
    firstPartData fcResponse = some (.functionCall fcCall) ∧
    hmGet fcRegistryMut fcCall.name = some (fun a => (fcMutConst a, fcResOk a)) ∧
    fcResOk fcCall.arguments = .ok (Json.str "ok") ∧
    generate_content_with_function_calling fcRegistryMut [fcResponse]
      emptyRequest =
      (let t := generate_content_with_function_calling fcRegistryMut []
        { emptyRequest with contents := emptyRequest.contents ++
            [⟨[ContentPart.fromData (.functionCall fcCall)], .user⟩,
             ⟨[ContentPart.fromData (.functionResponse ⟨fcCall.name, ⟨Json.str "ok"⟩⟩)], .tool⟩] };
       ⟨t.outcome, t.calls + 1, t.finalContents⟩) :=
  ⟨rfl, rfl, rfl,
   claim_C5_handler_mutation_not_recorded fcMutConst fcResOk fcRegistryMut
     fcResponse [] emptyRequest fcCall (Json.str "ok") rfl rfl rfl⟩

/-- C6: the orchestrator loop has no iteration cap: for every `n`, the
scripted transport consisting of `n+1` function-call responses — each with
the registered, succeeding handler `"f"` — drives more than `n` transport
calls. -/
theorem claim_C6_loop_unbounded :
    ∀ n : Nat,
      firstPartData fcResponse = some (.functionCall fcCall) ∧
      (hmGet fcRegistry fcCall.name).isSome = true ∧
      (fcHandlerOkNull fcCall.arguments).2 = .ok Json.null ∧
      n < (generate_content_with_function_calling fcRegistry
        (List.replicate (n + 1) fcResponse) emptyRequest).calls := by
  intro n
  refine ⟨rfl, rfl, rfl, ?_⟩
  rw [fc_replicate_calls]
  omega

/-- C7: for every constructible `ContentPart` with `metadata = none` — all
seven data variants and both values of the `thought` flag — encoding to the
wire form and decoding back yields the original value. -/
theorem claim_C7_round_trip (t : Bool) (d : ContentData) :
    decodeContentPart (encodeContentPart ⟨t, d, none⟩) = some ⟨t, d, none⟩ := by
  cases d <;> cases t <;> rfl

/-- C8: a wire payload carrying a populated (non-null) `metadata` field
decodes successfully with the metadata value stored, and re-encoding the
decoded part produces a payload with no `metadata` key; a wire
`"metadata": null` is also accepted but, per serde's `Option` semantics,
decodes to `metadata = none`. -/
theorem claim_C8_metadata_accept_only (t : Bool) (d : ContentData) (m : Json)
    (hm : m ≠ Json.null) :
    decodeContentPart (insertMetadata (encodeContentPart ⟨t, d, none⟩) m) =
      some ⟨t, d, some m⟩ ∧
    objFind (encodeContentPart ⟨t, d, some m⟩) "metadata" = none ∧
    decodeContentPart (insertMetadata (encodeContentPart ⟨t, d, none⟩)
      Json.null) = some ⟨t, d, none⟩ := by
  refine ⟨?_, ?_, ?_⟩
  · cases m <;> first
      | exact absurd rfl hm
      | cases d <;> cases t <;> rfl
  · cases d <;> cases t <;> rfl
  · cases d <;> cases t <;> rfl

/-- Witness for C8 at a concrete non-null metadata value. -/
theorem claim_C8_witness :
    (Json.str "meta" ≠ Json.null) ∧
    (decodeContentPart (insertMetadata
        (encodeContentPart ⟨false, .text "hi", none⟩) (Json.str "meta")) =
      some ⟨false, .text "hi", some (Json.str "meta")⟩ ∧
     objFind (encodeContentPart ⟨false, .text "hi", some (Json.str "meta")⟩)
       "metadata" = none ∧
     decodeContentPart (insertMetadata
        (encodeContentPart ⟨false, .text "hi", none⟩) Json.null) =
      some ⟨false, .text "hi", none⟩) :=
  ⟨fun h => Json.noConfusion h,
   claim_C8_metadata_accept_only false (.text "hi") (Json.str "meta")
     (fun h => Json.noConfusion h)⟩

/-- Counterexample to C9 as stated: on the single-page catalog whose one
entry is named `"models/models/x"`, the code's `name.replace("models/", "")`
yields `base_model_id = "x"`, while stripping the known `models/` prefix
(the claim's wording, `stripPrefixSpec`) yields `"models/x"`; the two
disagree. -/
theorem claim_C9_counterexample :
    Option.map (List.map Model.base_model_id) (list_models [[oddModel]]).1 =
      some ["x"] ∧
    stripPrefixSpec oddModel.name = "models/x" ∧
    (("x" : String) == "models/x") = false := by
  refine ⟨by decide, by decide, by decide⟩

/-- C9 (amended): for every non-empty chain of successful pages, the code
returns the concatenation of all pages' models in order, and each returned
entry's `base_model_id` equals its `name` with every occurrence of the
substring `"models/"` removed (which coincides with prefix-stripping
whenever `"models/"` occurs only as the leading prefix). -/
theorem claim_C9_pagination_concat_replace_all
    (pages : List (List Model)) (h : pages ≠ []) :
    (list_models pages).1 = some ((pages.flatten).map setBaseModelId) ∧
    ∀ m : Model, (setBaseModelId m).base_model_id =
      rustReplace m.name "models/" "" := by
  refine ⟨?_, fun m => rfl⟩
  rw [list_models_eq pages h]

/-- Witness for C9 (amended) at a concrete two-page catalog. -/
theorem claim_C9_witness :
    ([[modelA], [modelB]] : List (List Model)) ≠ [] ∧
    ((list_models [[modelA], [modelB]]).1 =
      some (([[modelA], [modelB]] : List (List Model)).flatten.map setBaseModelId) ∧
     ∀ m : Model, (setBaseModelId m).base_model_id =
       rustReplace m.name "models/" "") :=
  ⟨List.cons_ne_nil _ _,
   claim_C9_pagination_concat_replace_all [[modelA], [modelB]]
     (List.cons_ne_nil _ _)⟩

/-- C10: for every successful `n`-page exchange, `list_models` issues `n+1`
GET requests: the token-less status-check request first, then the loop
re-requests page 0 with no token (so the first page is fetched twice) and
follows the token chain — while the returned list accumulates each page's
models exactly once. -/
theorem claim_C10_n_plus_one_requests
    (pages : List (List Model)) (h : pages ≠ []) :
    (list_models pages).2.length = pages.length + 1 ∧
    (list_models pages).2.take 2 = [none, none] ∧
    (list_models pages).2 =
      none :: (List.range pages.length).map
        (fun j => if j = 0 then none else some j) ∧
    (list_models pages).1 = some ((pages.flatten).map setBaseModelId) := by
  obtain ⟨p, ps, rfl⟩ := List.exists_cons_of_ne_nil h
  rw [list_models_eq _ (List.cons_ne_nil _ _)]
  refine ⟨by simp, ?_, rfl, rfl⟩
  simp only [List.length_cons, List.range_succ_eq_map, List.map_cons]
  simp [List.take]

/-- Witness for C10 at a concrete two-page catalog. -/
theorem claim_C10_witness :
    ([[modelA], [modelB]] : List (List Model)) ≠ [] ∧
    ((list_models [[modelA], [modelB]]).2.length = 2 + 1 ∧
     (list_models [[modelA], [modelB]]).2.take 2 = [none, none] ∧
     (list_models [[modelA], [modelB]]).2 =
       none :: (List.range 2).map (fun j => if j = 0 then none else some j) ∧
     (list_models [[modelA], [modelB]]).1 =
       some (([[modelA], [modelB]] : List (List Model)).flatten.map setBaseModelId)) :=
  ⟨List.cons_ne_nil _ _,
   claim_C10_n_plus_one_requests [[modelA], [modelB]] (List.cons_ne_nil _ _)⟩

end Gemini
